import Mathlib

/-!
Shallow embedding of the daemon supervisor (`CardanoNode`) of this
repository, together with theorems settling the frozen claims about it.

The supervisor owns the lifecycle of the external daemon process: it
spawns it, exchanges IPC messages with it, drives an explicit lifecycle
state machine, assembles a TLS config from the daemon's `ReplyPort`
reply, persists the child pid, and reaps orphans.  Pure functions below
are translated directly from the source methods; external conditions
(process-alive probe, wait-timeout outcomes, file contents, spawn pids)
are supplied by an explicit environment record, and observable side
effects (broadcasts, listener dispatches, IPC sends, pid persistence,
resets) are returned as an effect list.
-/

namespace DaedalusNode

/-- The eleven lifecycle states (`CardanoNodeStates`). -/
inductive CardanoNodeState where
  | stopped
  | starting
  | running
  | exiting
  | stopping
  | updating
  | updated
  | crashed
  | errored
  | unrecoverable
  | updateFailed
deriving DecidableEq, Repr

/-- `CardanoNodeConfig`: the config used to spawn cardano-node. -/
structure CardanoNodeConfig where
  nodePath : String
  logFilePath : String
  tlsPath : String
  nodeArgs : List String
  startupTimeout : Nat
  startupMaxRetries : Nat
  shutdownTimeout : Nat
  killTimeout : Nat
  updateTimeout : Nat
deriving DecidableEq, Repr

/-- `TlsConfig`: the TLS config generated by the node on each startup. -/
structure TlsConfig where
  ca : String
  key : String
  cert : String
  hostname : String
  port : Nat
deriving DecidableEq, Repr

/-- The managed child process handle (`_node`): its pid and whether the
IPC channel is connected. -/
structure ChildHandle where
  pid : Nat
  connected : Bool
deriving DecidableEq, Repr

/-- The mutable fields of the `CardanoNode` class. -/
structure CardanoNode where
  state : CardanoNodeState
  startupTries : Nat
  tlsConfig : Option TlsConfig
  injectedFaults : List String
  node : Option ChildHandle
  status : Option String
  config : CardanoNodeConfig
deriving DecidableEq, Repr

/-- Observable side effects of supervisor operations, in program order. -/
inductive Effect where
  | broadcastState (s : CardanoNodeState)
  | listenerCall (s : CardanoNodeState)
  | broadcastTls (t : Option TlsConfig)
  | storePid (pid : Nat)
  | resetDone
  | sendQueryPort
  | sendSetFInject (fault : String) (enabled : Bool)
  | spawned (pid : Nat)
  | killSignal (pid : Nat)
  | osKillCommand (pid : Nat)
  | disconnected
  | waited (timeout : Nat)
deriving DecidableEq, Repr

/-- Settlement of one of the promise-returning operations: resolved,
rejected with a typed error, or left forever pending (which the source
can do through its promise-executor slip in `kill`). -/
inductive Outcome where
  | resolved
  | rejected (err : String)
  | pending
deriving DecidableEq, Repr

/-- External conditions an operation consults, supplied explicitly:
probe results, whether each bounded wait succeeded within its timeout,
and the value of `_injectedFaults` at which a fault wait resolved. -/
structure Env where
  orphanReapOk : Bool
  spawnPid : Nat
  connectsWithinStartupTimeout : Bool
  processRunning : Bool
  killSignalOk : Bool
  storeOk : Bool
  exitedWithinShutdownTimeout : Bool
  updateReachedWithinTimeout : Bool
  exitedWithinUpdateTimeout : Bool
  faultResolution : Option (List String)
deriving DecidableEq, Repr

/-- Exit code 20 signals a daemon self-update (`CARDANO_UPDATE_EXIT_CODE`). -/
def CARDANO_UPDATE_EXIT_CODE : Int := 20

/-- `_changeToState`: store the new state, broadcast it, then dispatch
the matching transition listener. -/
def _changeToState (n : CardanoNode) (s : CardanoNodeState) :
    CardanoNode × List Effect :=
  ({ n with state := s }, [Effect.broadcastState s, Effect.listenerCall s])

/-- `_reset`: close the log sink, detach the channel listeners, clear
the cached TLS config. -/
def _reset (n : CardanoNode) : CardanoNode × List Effect :=
  ({ n with tlsConfig := none }, [Effect.resetDone])

/-- `_isUnrecoverable`: the startup retries exhausted the budget. -/
def _isUnrecoverable (n : CardanoNode) (config : CardanoNodeConfig) : Bool :=
  decide (config.startupMaxRetries ≤ n.startupTries)

/-- `_isConnected`: the child handle exists and its channel is connected. -/
def _isConnected (n : CardanoNode) : Bool :=
  match n.node with
  | some h => h.connected
  | none => false

/-- `_isNodeProcessStillRunning`: the child handle exists and the
alive-probe reports its pid running under the daemon name. -/
def _isNodeProcessStillRunning (env : Env) (n : CardanoNode) : Bool :=
  n.node.isSome && env.processRunning

/-- `_isDead`: not connected and the process is not running anymore. -/
def _isDead (env : Env) (n : CardanoNode) : Bool :=
  !(_isConnected n) && !(_isNodeProcessStillRunning env n)

/-- `_handleCardanoNodeExit`: wait for real death (escalating to an
OS-level kill on timeout), then dispatch on the current state and reset.
If the state was `RUNNING` when the exit event arrived, first move to
`EXITING`. -/
def _handleCardanoNodeExit (env : Env) (n : CardanoNode) (code : Int)
    (signal : String) : CardanoNode × List Effect :=
  let (n1, effs1) :=
    if n.state = CardanoNodeState.running then
      _changeToState n CardanoNodeState.exiting
    else (n, [])
  let effsW :=
    Effect.waited n1.config.shutdownTimeout ::
      (if !env.exitedWithinShutdownTimeout then
        match n1.node with
        | some h => [Effect.osKillCommand h.pid]
        | none => []
      else [])
  let (n2, effs2) :=
    if n1.state = CardanoNodeState.stopping then
      _changeToState n1 CardanoNodeState.stopped
    else if n1.state = CardanoNodeState.updating ∧
        code = CARDANO_UPDATE_EXIT_CODE then
      _changeToState n1 CardanoNodeState.updated
    else if _isUnrecoverable n1 n1.config then
      _changeToState n1 CardanoNodeState.unrecoverable
    else
      _changeToState n1 CardanoNodeState.crashed
  let (n3, effs3) := _reset n2
  (n3, effs1 ++ effsW ++ effs2 ++ effs3)

/-- A sample config used by concrete counterexamples and witnesses. -/
def sampleConfig : CardanoNodeConfig :=
  { nodePath := "cardano-node"
    logFilePath := "node.log"
    tlsPath := "tls"
    nodeArgs := []
    startupTimeout := 5000
    startupMaxRetries := 1
    shutdownTimeout := 3000
    killTimeout := 1000
    updateTimeout := 2000 }

/-- A sample environment for concrete counterexamples and witnesses. -/
def sampleEnv : Env :=
  { orphanReapOk := true
    spawnPid := 4242
    connectsWithinStartupTimeout := true
    processRunning := true
    killSignalOk := true
    storeOk := true
    exitedWithinShutdownTimeout := true
    updateReachedWithinTimeout := true
    exitedWithinUpdateTimeout := true
    faultResolution := none }

/-- A supervisor in state `STARTING` whose retry budget is exhausted:
one startup try against `startupMaxRetries = 1`. -/
def exhaustedStartingNode : CardanoNode :=
  { state := CardanoNodeState.starting
    startupTries := 1
    tlsConfig := none
    injectedFaults := []
    node := some { pid := 4242, connected := false }
    status := none
    config := sampleConfig }

/-- C1 counterexample: the claim says a child that exits with code 20
outside `UPDATING` is classified `CRASHED`; but when the startup retry
budget is exhausted the exit dispatcher classifies the exit
`UNRECOVERABLE`, not `CRASHED` (state `STARTING`, exit code 20,
`startup_tries = startup_max_retries = 1`). -/
theorem C1_counterexample :
    exhaustedStartingNode.state ≠ CardanoNodeState.updating ∧
    (_handleCardanoNodeExit sampleEnv exhaustedStartingNode 20 "").1.state =
      CardanoNodeState.unrecoverable ∧
    (_handleCardanoNodeExit sampleEnv exhaustedStartingNode 20 "").1.state ≠
      CardanoNodeState.crashed := by
  decide

/-- Closed form of the state the exit handler dispatches to: `RUNNING`
is first demoted to `EXITING`, then `STOPPING` yields `STOPPED`,
`UPDATING` with exit code 20 yields `UPDATED`, exhausted retries yield
`UNRECOVERABLE`, and everything else yields `CRASHED`. -/
def exitDispatchState (n : CardanoNode) (code : Int) : CardanoNodeState :=
  let m := if n.state = CardanoNodeState.running then CardanoNodeState.exiting
           else n.state
  if m = CardanoNodeState.stopping then CardanoNodeState.stopped
  else if m = CardanoNodeState.updating ∧ code = 20 then
    CardanoNodeState.updated
  else if n.config.startupMaxRetries ≤ n.startupTries then
    CardanoNodeState.unrecoverable
  else CardanoNodeState.crashed

/-- The exit handler lands in exactly the state given by
`exitDispatchState`. -/
theorem exit_state_eq (env : Env) (n : CardanoNode) (code : Int)
    (signal : String) :
    (_handleCardanoNodeExit env n code signal).1.state =
      exitDispatchState n code := by
  unfold _handleCardanoNodeExit exitDispatchState _changeToState _reset
    _isUnrecoverable CARDANO_UPDATE_EXIT_CODE
  by_cases h1 : n.state = CardanoNodeState.running <;>
    simp [h1] <;> split_ifs <;> simp_all

/-- C1 (amended): after the process is confirmed dead the exit handler
dispatches on the current state (with `RUNNING` first demoted to
`EXITING`): `STOPPING` yields `STOPPED`; `UPDATING` with exit code 20
yields `UPDATED`; a resulting state of `UPDATED` occurs only from
`UPDATING` with exit code 20; otherwise the exit is classified
`UNRECOVERABLE` when the retry budget is exhausted and `CRASHED` when it
is not — so exit code 20 is never classified `UPDATED` outside
`UPDATING`, but the non-`UPDATED` classification is `CRASHED` only when
the retries are not exhausted. -/
theorem C1_exit_dispatch (env : Env) (n : CardanoNode) (code : Int)
    (signal : String) :
    (n.state = CardanoNodeState.stopping →
      (_handleCardanoNodeExit env n code signal).1.state =
        CardanoNodeState.stopped) ∧
    (n.state = CardanoNodeState.updating → code = 20 →
      (_handleCardanoNodeExit env n code signal).1.state =
        CardanoNodeState.updated) ∧
    ((_handleCardanoNodeExit env n code signal).1.state =
        CardanoNodeState.updated →
      n.state = CardanoNodeState.updating ∧ code = 20) ∧
    (n.state ≠ CardanoNodeState.stopping →
      n.state ≠ CardanoNodeState.updating →
      n.config.startupMaxRetries ≤ n.startupTries →
      (_handleCardanoNodeExit env n code signal).1.state =
        CardanoNodeState.unrecoverable) ∧
    (n.state ≠ CardanoNodeState.stopping →
      n.state ≠ CardanoNodeState.updating →
      n.startupTries < n.config.startupMaxRetries →
      (_handleCardanoNodeExit env n code signal).1.state =
        CardanoNodeState.crashed) := by
  have he := exit_state_eq env n code signal
  refine ⟨?_, ?_, ?_, ?_, ?_⟩
  · intro h
    rw [he]
    unfold exitDispatchState
    simp [h]
  · intro h h20
    rw [he]
    unfold exitDispatchState
    simp [h, h20]
  · intro h
    rw [he] at h
    unfold exitDispatchState at h
    by_cases hr : n.state = CardanoNodeState.running
    · simp [hr] at h
      split_ifs at h <;> simp_all
    · simp only [hr, if_false] at h
      split_ifs at h <;> simp_all
  · intro hns hnu hge
    rw [he]
    unfold exitDispatchState
    by_cases hr : n.state = CardanoNodeState.running
    · simp [hr, hge]
    · simp [hr, hns, hnu, hge]
  · intro hns hnu hlt
    rw [he]
    unfold exitDispatchState
    have hno : ¬ (n.config.startupMaxRetries ≤ n.startupTries) := by omega
    by_cases hr : n.state = CardanoNodeState.running
    · simp [hr, hno]
    · simp [hr, hns, hnu, hno]

/-- C1 witness: concrete instantiations of the amended dispatch theorem,
discharging its hypotheses at explicit states and exit codes. -/
theorem C1_witness :
    (_handleCardanoNodeExit sampleEnv
        { exhaustedStartingNode with state := CardanoNodeState.stopping }
        20 "").1.state = CardanoNodeState.stopped ∧
    (_handleCardanoNodeExit sampleEnv
        { exhaustedStartingNode with state := CardanoNodeState.updating }
        20 "").1.state = CardanoNodeState.updated ∧
    (_handleCardanoNodeExit sampleEnv exhaustedStartingNode 20 "").1.state =
      CardanoNodeState.unrecoverable ∧
    (_handleCardanoNodeExit sampleEnv
        { exhaustedStartingNode with startupTries := 0 } 1 "").1.state =
      CardanoNodeState.crashed := by
  refine ⟨?_, ?_, ?_, ?_⟩
  · exact (C1_exit_dispatch sampleEnv
      { exhaustedStartingNode with state := CardanoNodeState.stopping }
      20 "").1 rfl
  · exact (C1_exit_dispatch sampleEnv
      { exhaustedStartingNode with state := CardanoNodeState.updating }
      20 "").2.1 rfl rfl
  · exact (C1_exit_dispatch sampleEnv exhaustedStartingNode
      20 "").2.2.2.1 (by decide) (by decide) (by decide)
  · exact (C1_exit_dispatch sampleEnv
      { exhaustedStartingNode with startupTries := 0 }
      1 "").2.2.2.2 (by decide) (by decide) (by decide)

/-- The three TLS files read from `{tlsPath}/client/` when a
`ReplyPort` message arrives. -/
structure TlsFiles where
  caCrt : String
  clientKey : String
  clientPem : String
deriving DecidableEq, Repr

/-- The TLS config assembled from the files and the reported port. -/
def mkTlsConfig (files : TlsFiles) (port : Nat) : TlsConfig :=
  { ca := files.caCrt
    key := files.clientKey
    cert := files.clientPem
    hostname := "localhost"
    port := port }

/-- `_handleCardanoReplyPortMessage`: store the assembled TLS config;
if the state is `STARTING`, transition to `RUNNING`, broadcast the TLS
config, and reset the startup tries. -/
def _handleCardanoReplyPortMessage (files : TlsFiles) (n : CardanoNode)
    (port : Nat) : CardanoNode × List Effect :=
  let n1 := { n with tlsConfig := some (mkTlsConfig files port) }
  if n1.state = CardanoNodeState.starting then
    let (n2, effs) := _changeToState n1 CardanoNodeState.running
    ({ n2 with startupTries := 0 },
      effs ++ [Effect.broadcastTls n2.tlsConfig])
  else (n1, [])

/-- `_handleCardanoFaultInjectionResponse`: replace the recorded active
faults with the set the daemon confirmed. -/
def _handleCardanoFaultInjectionResponse (n : CardanoNode)
    (response : List String) : CardanoNode × List Effect :=
  ({ n with injectedFaults := response }, [])

/-- `_canBeStarted`: not currently connected, and the previously
persisted pid was successfully reaped (or was absent). -/
def _canBeStarted (env : Env) (n : CardanoNode) : Bool :=
  if _isConnected n then false else env.orphanReapOk

/-- `start`: guard on `_canBeStarted` and the retry budget (skipped when
forced), then increment the startup tries, transition to `STARTING`,
spawn the daemon, wait up to `startupTimeout` for the channel to
connect, and send `QueryPort`. -/
def start (config : CardanoNodeConfig) (isForced : Bool) (env : Env)
    (n : CardanoNode) : CardanoNode × List Effect × Outcome :=
  if !(_canBeStarted env n) then
    (n, [], Outcome.rejected "CardanoNode: Cannot be started")
  else if _isUnrecoverable n config && !isForced then
    (n, [], Outcome.rejected "CardanoNode: Too many startup retries")
  else
    let n1 := { n with config := config, startupTries := n.startupTries + 1 }
    let (n2, effs) := _changeToState n1 CardanoNodeState.starting
    let handle : ChildHandle :=
      ⟨env.spawnPid, env.connectsWithinStartupTimeout⟩
    let n3 := { n2 with node := some handle }
    let effs := effs ++
      [Effect.spawned env.spawnPid, Effect.waited config.startupTimeout]
    if env.connectsWithinStartupTimeout then
      (n3, effs ++ [Effect.sendQueryPort], Outcome.resolved)
    else
      (n3, effs,
        Outcome.rejected "CardanoNode#start: Error while spawning cardano-node")

/-- C2: a `ReplyPort` in `STARTING` produces exactly one `RUNNING`
transition, broadcasting the TLS config once; a duplicate `ReplyPort`
(or any `ReplyPort` past `STARTING`) updates the stored TLS config but
causes no state change, no broadcast, and no second `RUNNING`
transition. -/
theorem C2_replyPort_idempotent (files files2 : TlsFiles) (n : CardanoNode)
    (port port2 : Nat) :
    (n.state = CardanoNodeState.starting →
      (_handleCardanoReplyPortMessage files n port).1.state =
        CardanoNodeState.running ∧
      (_handleCardanoReplyPortMessage files n port).2.count
        (Effect.broadcastState CardanoNodeState.running) = 1 ∧
      (_handleCardanoReplyPortMessage files n port).2.count
        (Effect.broadcastTls (some (mkTlsConfig files port))) = 1) ∧
    (n.state ≠ CardanoNodeState.starting →
      (_handleCardanoReplyPortMessage files n port).1.state = n.state ∧
      (_handleCardanoReplyPortMessage files n port).1.tlsConfig =
        some (mkTlsConfig files port) ∧
      (_handleCardanoReplyPortMessage files n port).2 = []) ∧
    (n.state = CardanoNodeState.starting →
      ((_handleCardanoReplyPortMessage files n port).2 ++
        (_handleCardanoReplyPortMessage files2
          (_handleCardanoReplyPortMessage files n port).1 port2).2).count
        (Effect.broadcastState CardanoNodeState.running) = 1 ∧
      (_handleCardanoReplyPortMessage files2
        (_handleCardanoReplyPortMessage files n port).1 port2).1.state =
        CardanoNodeState.running ∧
      (_handleCardanoReplyPortMessage files2
        (_handleCardanoReplyPortMessage files n port).1 port2).1.tlsConfig =
        some (mkTlsConfig files2 port2)) := by
  unfold _handleCardanoReplyPortMessage _changeToState
  refine ⟨?_, ?_, ?_⟩
  · intro h
    simp [h, List.count_cons, List.count_append]
  · intro h
    simp [h]
  · intro h
    simp [h, List.count_cons, List.count_append]

/-- C2 witness: a supervisor in `STARTING` receiving two `ReplyPort`
frames transitions to `RUNNING` exactly once and keeps the second TLS
config without re-broadcasting. -/
theorem C2_witness :
    ((_handleCardanoReplyPortMessage ⟨"ca", "key", "pem"⟩
        { exhaustedStartingNode with state := CardanoNodeState.starting }
        8090).2 ++
      (_handleCardanoReplyPortMessage ⟨"ca2", "key2", "pem2"⟩
        (_handleCardanoReplyPortMessage ⟨"ca", "key", "pem"⟩
          { exhaustedStartingNode with state := CardanoNodeState.starting }
          8090).1 8091).2).count
      (Effect.broadcastState CardanoNodeState.running) = 1 ∧
    (_handleCardanoReplyPortMessage ⟨"ca2", "key2", "pem2"⟩
      (_handleCardanoReplyPortMessage ⟨"ca", "key", "pem"⟩
        { exhaustedStartingNode with state := CardanoNodeState.starting }
        8090).1 8091).1.tlsConfig =
      some (mkTlsConfig ⟨"ca2", "key2", "pem2"⟩ 8091) := by
  have h := (C2_replyPort_idempotent ⟨"ca", "key", "pem"⟩
    ⟨"ca2", "key2", "pem2"⟩
    { exhaustedStartingNode with state := CardanoNodeState.starting }
    8090 8091).2.2 rfl
  exact ⟨h.1, h.2.2⟩

/-- One inbound event driving the supervisor. -/
inductive Event where
  | startEv (config : CardanoNodeConfig) (isForced : Bool) (env : Env)
  | replyPortEv (files : TlsFiles) (port : Nat)
  | fInjectsEv (response : List String)
  | exitEv (env : Env) (code : Int) (signal : String)
deriving DecidableEq, Repr

/-- One step of the supervisor: dispatch the event to the corresponding
source handler. -/
def step (n : CardanoNode) (e : Event) : CardanoNode × List Effect :=
  match e with
  | Event.startEv config isForced env =>
    let r := start config isForced env n
    (r.1, r.2.1)
  | Event.replyPortEv files port =>
    _handleCardanoReplyPortMessage files n port
  | Event.fInjectsEv response =>
    _handleCardanoFaultInjectionResponse n response
  | Event.exitEv env code signal =>
    _handleCardanoNodeExit env n code signal

/-- Run a trace of events from a supervisor state. -/
def runTrace (n : CardanoNode) : List Event → CardanoNode
  | [] => n
  | e :: es => runTrace (step n e).1 es

/-- How many `STARTING` transitions a step broadcast. -/
def startingBroadcasts (effs : List Effect) : Nat :=
  effs.count (Effect.broadcastState CardanoNodeState.starting)

/-- How many `RUNNING` transitions a step broadcast. -/
def runningBroadcasts (effs : List Effect) : Nat :=
  effs.count (Effect.broadcastState CardanoNodeState.running)

/-- No step of the trace transitions into `RUNNING`. -/
def noRunningEntry (n : CardanoNode) : List Event → Bool
  | [] => true
  | e :: es =>
    (runningBroadcasts (step n e).2 == 0) && noRunningEntry (step n e).1 es

/-- Number of entries into `STARTING` across the trace. -/
def startingEntries (n : CardanoNode) : List Event → Nat
  | [] => 0
  | e :: es =>
    startingBroadcasts (step n e).2 + startingEntries (step n e).1 es

/-- A freshly constructed supervisor: `STOPPED`, zero tries, nothing
cached, no child. -/
def initialNode (config : CardanoNodeConfig) : CardanoNode :=
  { state := CardanoNodeState.stopped
    startupTries := 0
    tlsConfig := none
    injectedFaults := []
    node := none
    status := none
    config := config }

/-- Per-step accounting of `_startupTries`: a step that does not enter
`RUNNING` adds exactly its number of `STARTING` entries, and a step that
enters `RUNNING` resets the counter to zero. -/
theorem exit_effects_counts (env : Env) (n : CardanoNode) (code : Int)
    (signal : String) :
    startingBroadcasts (_handleCardanoNodeExit env n code signal).2 = 0 ∧
    runningBroadcasts (_handleCardanoNodeExit env n code signal).2 = 0 ∧
    (_handleCardanoNodeExit env n code signal).1.startupTries =
      n.startupTries := by
  unfold _handleCardanoNodeExit _changeToState _reset
  by_cases h1 : n.state = CardanoNodeState.running <;>
    cases hn : n.node <;>
      simp [h1, hn, runningBroadcasts, startingBroadcasts,
        List.count_append, List.count_cons] <;>
      split_ifs <;>
      simp [List.count_append, List.count_cons]

/-- The exit handler never lands in `RUNNING`. -/
theorem exitDispatchState_ne_running (n : CardanoNode) (code : Int) :
    exitDispatchState n code ≠ CardanoNodeState.running := by
  by_cases hr : n.state = CardanoNodeState.running <;>
    simp [exitDispatchState, hr] <;> split_ifs <;> simp

/-- Per-step accounting of `_startupTries`: a step that does not enter
`RUNNING` adds exactly its number of `STARTING` entries, and a step that
enters `RUNNING` resets the counter to zero. -/
theorem step_startupTries (n : CardanoNode) (e : Event) :
    (runningBroadcasts (step n e).2 = 0 →
      (step n e).1.startupTries =
        n.startupTries + startingBroadcasts (step n e).2) ∧
    (runningBroadcasts (step n e).2 ≠ 0 →
      (step n e).1.startupTries = 0) := by
  cases e with
  | startEv config isForced env =>
    simp only [step]
    unfold start _changeToState
    by_cases h1 : _canBeStarted env n <;>
      by_cases h2 : (_isUnrecoverable n config && !isForced) = true <;>
        by_cases h3 : env.connectsWithinStartupTimeout <;>
          simp [h1, h2, h3, runningBroadcasts, startingBroadcasts,
            List.count_append, List.count_cons]
  | replyPortEv files port =>
    simp only [step]
    unfold _handleCardanoReplyPortMessage _changeToState
    by_cases h : n.state = CardanoNodeState.starting <;>
      simp [h, runningBroadcasts, startingBroadcasts, List.count_append,
        List.count_cons]
  | fInjectsEv response =>
    simp only [step]
    unfold _handleCardanoFaultInjectionResponse
    simp [runningBroadcasts, startingBroadcasts]
  | exitEv env code signal =>
    simp only [step]
    have h := exit_effects_counts env n code signal
    constructor
    · intro _
      simp [h.1, h.2.2]
    · intro hc
      exact absurd h.2.1 hc

/-- Along a trace with no entry into `RUNNING`, `_startupTries` counts
exactly the entries into `STARTING`. -/
theorem runTrace_startupTries (tr : List Event) :
    ∀ n : CardanoNode, noRunningEntry n tr = true →
      (runTrace n tr).startupTries =
        n.startupTries + startingEntries n tr := by
  induction tr with
  | nil =>
    intro n h
    simp [runTrace, startingEntries]
  | cons e es ih =>
    intro n h
    unfold noRunningEntry at h
    rw [Bool.and_eq_true] at h
    obtain ⟨h1, h2⟩ := h
    unfold runTrace startingEntries
    rw [ih _ h2]
    have h3 := (step_startupTries n e).1 (by simpa using h1)
    omega

/-- C3: each entry into `STARTING` (all of which are triggered by
`start`) increments `startup_tries` by exactly one; every entry into
`RUNNING` resets it to zero; and immediately after any step whose
resulting state is `RUNNING` but whose previous state was not,
`startup_tries` is zero. -/
theorem C3_startupTries_accounting (n : CardanoNode) (e : Event) :
    (startingBroadcasts (step n e).2 ≠ 0 →
      startingBroadcasts (step n e).2 = 1 ∧
      (step n e).1.startupTries = n.startupTries + 1) ∧
    (runningBroadcasts (step n e).2 ≠ 0 →
      runningBroadcasts (step n e).2 = 1 ∧
      (step n e).1.startupTries = 0) ∧
    ((step n e).1.state = CardanoNodeState.running →
      n.state ≠ CardanoNodeState.running →
      (step n e).1.startupTries = 0) := by
  cases e with
  | startEv config isForced env =>
    simp only [step]
    unfold start _changeToState
    by_cases h1 : _canBeStarted env n <;>
      by_cases h2 : (_isUnrecoverable n config && !isForced) = true <;>
        by_cases h3 : env.connectsWithinStartupTimeout <;>
          simp [h1, h2, h3, runningBroadcasts, startingBroadcasts,
            List.count_append, List.count_cons] <;>
          tauto
  | replyPortEv files port =>
    simp only [step]
    unfold _handleCardanoReplyPortMessage _changeToState
    by_cases h : n.state = CardanoNodeState.starting <;>
      simp [h, runningBroadcasts, startingBroadcasts, List.count_append,
        List.count_cons] <;>
      tauto
  | fInjectsEv response =>
    simp only [step]
    unfold _handleCardanoFaultInjectionResponse
    simp [runningBroadcasts, startingBroadcasts]
    tauto
  | exitEv env code signal =>
    simp only [step]
    have h := exit_effects_counts env n code signal
    have hs := exit_state_eq env n code signal
    have hne := exitDispatchState_ne_running n code
    refine ⟨?_, ?_, ?_⟩
    · intro hc
      exact absurd h.1 hc
    · intro hc
      exact absurd h.2.1 hc
    · intro hrun _
      rw [hs] at hrun
      exact absurd hrun hne

/-- C3 witness: a guard-passing `start` from the fresh supervisor emits
one `STARTING` entry and raises the counter from 0 to 1; the subsequent
`ReplyPort` enters `RUNNING` and resets it to 0. -/
theorem C3_witness :
    (step (initialNode sampleConfig)
      (Event.startEv sampleConfig false sampleEnv)).1.startupTries = 1 ∧
    (step (step (initialNode sampleConfig)
        (Event.startEv sampleConfig false sampleEnv)).1
      (Event.replyPortEv ⟨"ca", "key", "pem"⟩ 8090)).1.startupTries = 0 := by
  constructor
  · exact ((C3_startupTries_accounting (initialNode sampleConfig)
      (Event.startEv sampleConfig false sampleEnv)).1 (by decide)).2
  · exact (C3_startupTries_accounting
      (step (initialNode sampleConfig)
        (Event.startEv sampleConfig false sampleEnv)).1
      (Event.replyPortEv ⟨"ca", "key", "pem"⟩ 8090)).2.2
      (by decide) (by decide)

/-- C4: after a trace containing exactly `startup_max_retries`
guard-passing `start` attempts, none of which entered `RUNNING`, the
next unforced `start` fails with the too-many-retries error, changing
nothing and spawning nothing, while the same call with `isForced = true`
passes the guard, spawns the child, and transitions to `STARTING`. -/
theorem C4_tooManyRetries (config : CardanoNodeConfig) (env : Env)
    (tr : List Event)
    (hnr : noRunningEntry (initialNode config) tr = true)
    (hN : startingEntries (initialNode config) tr =
      config.startupMaxRetries)
    (hcb : _canBeStarted env (runTrace (initialNode config) tr) = true) :
    start config false env (runTrace (initialNode config) tr) =
      (runTrace (initialNode config) tr, [],
        Outcome.rejected "CardanoNode: Too many startup retries") ∧
    (start config true env (runTrace (initialNode config) tr)).2.2 ≠
      Outcome.rejected "CardanoNode: Too many startup retries" ∧
    Effect.spawned env.spawnPid ∈
      (start config true env (runTrace (initialNode config) tr)).2.1 ∧
    (start config true env (runTrace (initialNode config) tr)).1.state =
      CardanoNodeState.starting := by
  have htr := runTrace_startupTries tr (initialNode config) hnr
  have hs : (runTrace (initialNode config) tr).startupTries =
      config.startupMaxRetries := by
    rw [htr]
    simpa [initialNode] using hN
  refine ⟨?_, ?_, ?_, ?_⟩
  · unfold start
    simp [hcb, _isUnrecoverable, hs]
  · unfold start
    by_cases hc : env.connectsWithinStartupTimeout <;>
      simp [hcb, _isUnrecoverable, hs, hc, _changeToState]
  · unfold start
    by_cases hc : env.connectsWithinStartupTimeout <;>
      simp [hcb, _isUnrecoverable, hs, hc, _changeToState]
  · unfold start
    by_cases hc : env.connectsWithinStartupTimeout <;>
      simp [hcb, _isUnrecoverable, hs, hc, _changeToState]

/-- An environment in which the spawned child never connects within the
startup timeout. -/
def envNoConnect : Env :=
  { sampleEnv with connectsWithinStartupTimeout := false }

/-- C4 witness: with `startup_max_retries = 1`, after one failed start
attempt the second unforced `start` is rejected with the
too-many-retries error and spawns nothing, while the forced `start`
spawns and enters `STARTING`. -/
theorem C4_witness :
    start sampleConfig false sampleEnv
      (runTrace (initialNode sampleConfig)
        [Event.startEv sampleConfig false envNoConnect]) =
      (runTrace (initialNode sampleConfig)
        [Event.startEv sampleConfig false envNoConnect], [],
        Outcome.rejected "CardanoNode: Too many startup retries") ∧
    Effect.spawned sampleEnv.spawnPid ∈
      (start sampleConfig true sampleEnv
        (runTrace (initialNode sampleConfig)
          [Event.startEv sampleConfig false envNoConnect])).2.1 := by
  have h := C4_tooManyRetries sampleConfig sampleEnv
    [Event.startEv sampleConfig false envNoConnect]
    (by decide) (by decide) (by decide)
  exact ⟨h.1, h.2.2.1⟩

/-- `_storeProcessStates`: persist the child pid under the
`PREVIOUS_CARDANO_PID` key, when a child handle exists. -/
def _storeProcessStates (n : CardanoNode) : CardanoNode × List Effect :=
  match n.node with
  | some h => (n, [Effect.storePid h.pid])
  | none => (n, [])

/-- `_waitForCardanoToExitOrKillIt`: the source guard reads
`if (this._isNodeProcessNotRunningAnymore()) return ...` without
awaiting the asynchronous probe, so the condition is a promise object
and always truthy: the function returns immediately on every call and
never reaches its shutdown-timeout wait or its escalation kill. -/
def _waitForCardanoToExitOrKillIt (n : CardanoNode) :
    CardanoNode × List Effect :=
  (n, [])

/-- `kill`: when the child is already dead the executor returns an
inner resolved promise without settling the outer one, so the promise
`kill` returned stays pending forever.  Otherwise signal the child, run
the (immediately returning) exit-or-kill wait, persist the pid,
transition to `STOPPED`, reset and resolve.  If the kill signal throws,
the catch block persists the pid, resets, and rejects; if persisting
throws, the catch block re-attempts the persist, which throws inside
the executor and leaves the promise pending. -/
def kill (env : Env) (n : CardanoNode) :
    CardanoNode × List Effect × Outcome :=
  if _isDead env n then
    (n, [], Outcome.pending)
  else if env.killSignalOk then
    let effsK := match n.node with
      | some h => [Effect.killSignal h.pid]
      | none => []
    let (n1, effsW) := _waitForCardanoToExitOrKillIt n
    if env.storeOk then
      let (n2, effsS) := _storeProcessStates n1
      let (n3, effsC) := _changeToState n2 CardanoNodeState.stopped
      let (n4, effsR) := _reset n3
      (n4, effsK ++ effsW ++ effsS ++ effsC ++ effsR, Outcome.resolved)
    else
      (n1, effsK ++ effsW, Outcome.pending)
  else if env.storeOk then
    let (n2, effsS) := _storeProcessStates n
    let (n3, effsR) := _reset n2
    (n3, effsS ++ effsR, Outcome.rejected "Could not kill cardano-node.")
  else
    (n, [], Outcome.pending)

/-- `stop`: success when the child is already dead; otherwise
disconnect, transition to `STOPPING`, wait up to `shutdownTimeout` for
process death, persist the pid and reset on success, and escalate to
`kill` on timeout (or on a persist failure), returning the outcome of
`kill`. -/
def stop (env : Env) (n : CardanoNode) :
    CardanoNode × List Effect × Outcome :=
  if _isDead env n then
    (n, [], Outcome.resolved)
  else
    let (n1, effsS) := _changeToState n CardanoNodeState.stopping
    let effsW := [Effect.waited n1.config.shutdownTimeout]
    if env.exitedWithinShutdownTimeout && env.storeOk then
      let (n2, effsP) := _storeProcessStates n1
      let (n3, effsR) := _reset n2
      (n3, Effect.disconnected :: (effsS ++ effsW ++ effsP ++ effsR),
        Outcome.resolved)
    else
      let (n2, effsK, out) := kill env n1
      (n2, Effect.disconnected :: (effsS ++ effsW ++ effsK), out)

/-- A supervisor whose child is alive and connected. -/
def aliveNode : CardanoNode :=
  { state := CardanoNodeState.running
    startupTries := 0
    tlsConfig := some (mkTlsConfig ⟨"ca", "key", "pem"⟩ 8090)
    injectedFaults := []
    node := some ⟨4242, true⟩
    status := none
    config := sampleConfig }

/-- Whether an effect is a bounded wait. -/
def isWaited : Effect → Bool
  | Effect.waited _ => true
  | _ => false

/-- The live sample supervisor after the `STOPPED` transition and the
reset of `kill`. -/
def stoppedAliveNode : CardanoNode :=
  { state := CardanoNodeState.stopped
    startupTries := 0
    tlsConfig := none
    injectedFaults := []
    node := some ⟨4242, true⟩
    status := none
    config := sampleConfig }

/-- C5 (code bug): `kill` on a live child that never exits resolves
immediately with state `STOPPED` — the effect list shows the kill
signal, the pid persistence, the `STOPPED` transition and the reset,
but no bounded wait at all, and the outcome is success rather than the
kill-failed rejection, because the exit-or-kill wait's guard does not
await its probe. -/
theorem C5_kill_does_not_wait :
    kill sampleEnv aliveNode =
      (stoppedAliveNode,
        [Effect.killSignal 4242, Effect.storePid 4242,
          Effect.broadcastState CardanoNodeState.stopped,
          Effect.listenerCall CardanoNodeState.stopped, Effect.resetDone],
        Outcome.resolved) ∧
    (kill sampleEnv aliveNode).2.1.all (fun e => !(isWaited e)) = true ∧
    sampleEnv.processRunning = true := by
  decide

/-- C6 (code bug): `kill` on an already-dead child performs no state
change and kills nothing, but the promise it returns never settles
(the executor returns an inner resolved promise instead of calling the
outer `resolve`), so the caller never observes the promised success. -/
theorem C6_kill_dead_never_settles :
    kill sampleEnv (initialNode sampleConfig) =
      (initialNode sampleConfig, [], Outcome.pending) := by
  decide

/-- Whether an effect is a pid persistence. -/
def isStorePid : Effect → Bool
  | Effect.storePid _ => true
  | _ => false

/-- Every reset in an effect list is preceded by a pid persistence. -/
def resetsCoveredAux : List Effect → Bool → Bool
  | [], _ => true
  | Effect.storePid _ :: es, _ => resetsCoveredAux es true
  | Effect.resetDone :: es, seen => seen && resetsCoveredAux es seen
  | _ :: es, seen => resetsCoveredAux es seen

/-- Every reset an operation performed came after the pid was
persisted in the same operation. -/
def resetsCovered (effs : List Effect) : Bool := resetsCoveredAux effs false

/-- C7 counterexample: the exit handler (here: a crash of a `RUNNING`
child) performs a reset and persists no pid at all beforehand, so a
reset does occur whose termination never wrote `previous_cardano_pid`. -/
theorem C7_counterexample :
    Effect.resetDone ∈ (_handleCardanoNodeExit sampleEnv aliveNode 1
      "SIGSEGV").2 ∧
    (_handleCardanoNodeExit sampleEnv aliveNode 1 "SIGSEGV").2.all
      (fun e => !(isStorePid e)) = true := by
  decide

/-- C7 (amended): the pid is persisted before every reset performed by
`stop` and by `kill`, but the exit handler's reset happens without any
pid persistence in that termination. -/
theorem C7_persist_before_reset (env : Env) (n : CardanoNode) (code : Int)
    (signal : String) :
    resetsCovered (stop env n).2.1 = true ∧
    resetsCovered (kill env n).2.1 = true ∧
    Effect.resetDone ∈ (_handleCardanoNodeExit env n code signal).2 ∧
    (_handleCardanoNodeExit env n code signal).2.all
      (fun e => !(isStorePid e)) = true := by
  refine ⟨?_, ?_, ?_, ?_⟩
  · unfold stop kill _changeToState _reset _storeProcessStates
      _waitForCardanoToExitOrKillIt
    cases hn : n.node <;>
      by_cases hd : _isDead env n = true <;>
        simp_all [_isDead, _isConnected, _isNodeProcessStillRunning] <;>
        first
          | rfl
          | (split_ifs <;> simp [resetsCovered, resetsCoveredAux])
          | simp [resetsCovered, resetsCoveredAux]
  · unfold kill _changeToState _reset _storeProcessStates
      _waitForCardanoToExitOrKillIt
    cases hn : n.node <;>
      by_cases hd : _isDead env n = true <;>
        simp_all [_isDead, _isConnected, _isNodeProcessStillRunning] <;>
        first
          | rfl
          | (split_ifs <;> simp [resetsCovered, resetsCoveredAux])
          | simp [resetsCovered, resetsCoveredAux]
  · unfold _handleCardanoNodeExit _changeToState _reset
    by_cases h1 : n.state = CardanoNodeState.running <;>
      cases hn : n.node <;>
        simp [h1, hn] <;>
        split_ifs <;>
        simp
  · unfold _handleCardanoNodeExit _changeToState _reset
    by_cases h1 : n.state = CardanoNodeState.running <;>
      cases hn : n.node <;>
        simp [h1, hn, isStorePid] <;>
        split_ifs <;>
        simp [isStorePid]

/-- C7 witness: instantiates the amended theorem on the live sample
supervisor: both `stop` and `kill` persist before their resets there,
while the exit handler resets without persisting. -/
theorem C7_witness :
    resetsCovered (stop sampleEnv aliveNode).2.1 = true ∧
    resetsCovered (kill sampleEnv aliveNode).2.1 = true ∧
    Effect.resetDone ∈ (_handleCardanoNodeExit sampleEnv aliveNode 1
      "SIGKILL").2 ∧
    (_handleCardanoNodeExit sampleEnv aliveNode 1 "SIGKILL").2.all
      (fun e => !(isStorePid e)) = true :=
  C7_persist_before_reset sampleEnv aliveNode 1 "SIGKILL"

/-- `expectNodeUpdate`: transition to `UPDATING`; wait up to
`updateTimeout` for the state to become `UPDATED`, which only the exit
handler observing exit code 20 can do (modeled by running the exit
handler when the environment says the update arrived in time); then
wait up to `updateTimeout` for the process to really exit.  On either
timeout, kill the node and return the outcome of `kill` itself. -/
def expectNodeUpdate (env : Env) (n : CardanoNode) :
    CardanoNode × List Effect × Outcome :=
  let (n1, effsU) := _changeToState n CardanoNodeState.updating
  let effsW1 := [Effect.waited n1.config.updateTimeout]
  if env.updateReachedWithinTimeout then
    let (n2, effsX) := _handleCardanoNodeExit env n1 20 ""
    if env.exitedWithinUpdateTimeout then
      (n2, effsU ++ effsX ++ effsW1 ++
        [Effect.waited n2.config.updateTimeout], Outcome.resolved)
    else
      let (n3, effsK, out) := kill env n2
      (n3, effsU ++ effsX ++ effsW1 ++
        [Effect.waited n2.config.updateTimeout] ++ effsK, out)
  else
    let (n2, effsK, out) := kill env n1
    (n2, effsU ++ effsW1 ++ effsK, out)

/-- An environment in which the update never arrives within
`updateTimeout`. -/
def envUpdateTimeout : Env :=
  { sampleEnv with updateReachedWithinTimeout := false }

/-- C8 counterexample: when the update never arrives within
`updateTimeout`, `expectNodeUpdate` on a live child kills it and — the
kill having succeeded — resolves successfully: the caller receives
success, not an update-timeout error. -/
theorem C8_counterexample :
    (expectNodeUpdate envUpdateTimeout aliveNode).2.2 = Outcome.resolved := by
  decide

/-- C8 (amended): `expectNodeUpdate` transitions to `UPDATING` and waits
up to `updateTimeout` for the update; when the update arrives it waits
up to `updateTimeout` again for the real exit and resolves; on either
timeout it invokes `kill()` and returns the outcome of `kill` itself
(success if the kill succeeds), not a separate update-timeout error. -/
theorem C8_expectNodeUpdate (env : Env) (n : CardanoNode) :
    Effect.broadcastState CardanoNodeState.updating ∈
      (expectNodeUpdate env n).2.1 ∧
    Effect.waited n.config.updateTimeout ∈ (expectNodeUpdate env n).2.1 ∧
    (env.updateReachedWithinTimeout = false →
      (expectNodeUpdate env n).2.2 =
        (kill env { n with state := CardanoNodeState.updating }).2.2) ∧
    (env.updateReachedWithinTimeout = true →
      env.exitedWithinUpdateTimeout = false →
      (expectNodeUpdate env n).2.2 =
        (kill env
          (_handleCardanoNodeExit env
            { n with state := CardanoNodeState.updating } 20 "").1).2.2) ∧
    (env.updateReachedWithinTimeout = true →
      env.exitedWithinUpdateTimeout = true →
      (expectNodeUpdate env n).2.2 = Outcome.resolved) := by
  by_cases h1 : env.updateReachedWithinTimeout <;>
    by_cases h2 : env.exitedWithinUpdateTimeout <;>
      simp [expectNodeUpdate, _changeToState, h1, h2]

/-- C8 witness: on the live sample supervisor with the update timing
out, the outcome of `expectNodeUpdate` is exactly the outcome of
`kill`. -/
theorem C8_witness :
    (expectNodeUpdate envUpdateTimeout aliveNode).2.2 =
      (kill envUpdateTimeout
        { aliveNode with state := CardanoNodeState.updating }).2.2 :=
  (C8_expectNodeUpdate envUpdateTimeout aliveNode).2.2.1 rfl

/-- `setFault`: without a child, resolve immediately as a no-op;
otherwise send `SetFInject` and wait until the daemon-confirmed fault
set (`_injectedFaults`, which only `FInjects` responses update)
satisfies the request — the fault present when enabling, absent when
disabling — rejecting if the wait never succeeds. -/
def setFault (env : Env) (n : CardanoNode) (fault : String)
    (isEnabled : Bool) : CardanoNode × List Effect × Outcome :=
  match n.node with
  | none => (n, [], Outcome.resolved)
  | some _ =>
    let effs := [Effect.sendSetFInject fault isEnabled]
    match env.faultResolution with
    | some fs =>
      if (if isEnabled then fault ∈ fs else fault ∉ fs) then
        ({ n with injectedFaults := fs }, effs, Outcome.resolved)
      else
        (n, effs, Outcome.rejected ("cardano-node did not inject the fault \"" ++ fault ++ "\" correctly."))
    | none =>
      (n, effs, Outcome.rejected ("cardano-node did not inject the fault \"" ++ fault ++ "\" correctly."))

/-- C9: with no child connected, `setFault` resolves as a no-op without
sending anything or changing anything; with a child, it sends
`SetFInject` and resolves successfully only when the daemon-confirmed
fault set satisfies the request: the fault is among the injected faults
when enabling and absent from them when disabling. -/
theorem C9_setFault (env : Env) (n : CardanoNode) (fault : String)
    (isEnabled : Bool) :
    (n.node = none →
      setFault env n fault isEnabled = (n, [], Outcome.resolved)) ∧
    ((setFault env n fault isEnabled).2.2 = Outcome.resolved →
      n.node ≠ none →
      Effect.sendSetFInject fault isEnabled ∈
        (setFault env n fault isEnabled).2.1 ∧
      (isEnabled = true →
        fault ∈ (setFault env n fault isEnabled).1.injectedFaults) ∧
      (isEnabled = false →
        fault ∉ (setFault env n fault isEnabled).1.injectedFaults)) := by
  cases hn : n.node with
  | none => simp [setFault, hn]
  | some h =>
    cases hf : env.faultResolution with
    | none => simp [setFault, hn, hf]
    | some fs =>
      by_cases hc : (if isEnabled then fault ∈ fs else fault ∉ fs) <;>
        cases isEnabled <;>
          simp_all [setFault, hn, hf]

/-- C9 witness: with a connected child, enabling fault f1 resolves and
leaves f1 among the injected faults; with no child, `setFault` is a
no-op success. -/
theorem C9_witness :
    "f1" ∈ (setFault
      { sampleEnv with faultResolution := some ["f1"] }
      aliveNode "f1" true).1.injectedFaults ∧
    setFault sampleEnv (initialNode sampleConfig) "f1" true =
      (initialNode sampleConfig, [], Outcome.resolved) := by
  constructor
  · exact ((C9_setFault
      { sampleEnv with faultResolution := some ["f1"] }
      aliveNode "f1" true).2 (by decide) (by decide)).2.1 rfl
  · exact (C9_setFault sampleEnv (initialNode sampleConfig)
      "f1" true).1 rfl

/-- A JavaScript-object view of a TLS config: each field may be absent.
`Object.assign` onto an empty target copies exactly the present
fields. -/
structure JsTlsObj where
  ca : Option String
  key : Option String
  cert : Option String
  hostname : Option String
  port : Option Nat
deriving DecidableEq, Repr

/-- The empty JavaScript object. -/
def JsTlsObj.empty : JsTlsObj := ⟨none, none, none, none, none⟩

/-- `Object.assign({}, src)` where `src` is the internal `_tlsConfig`
(possibly null): copies the fields when the source is an object and
yields the empty object when the source is null. -/
def jsObjOfTls : Option TlsConfig → JsTlsObj
  | none => JsTlsObj.empty
  | some t =>
    ⟨some t.ca, some t.key, some t.cert, some t.hostname, some t.port⟩

/-- A heap of JavaScript objects with a bump allocator: references are
indices below `next`. -/
structure JsHeap where
  mem : Nat → JsTlsObj
  next : Nat

/-- Overwrite the object behind a reference. -/
def heapWrite (h : JsHeap) (r : Nat) (o : JsTlsObj) : JsHeap :=
  { h with mem := fun i => if i = r then o else h.mem i }

/-- The `tlsConfig` getter: allocate a fresh object holding
`Object.assign({}, _tlsConfig)` and return its reference. -/
def tlsConfigAlloc (h : JsHeap) (tls : Option TlsConfig) : Nat × JsHeap :=
  (h.next,
    { mem := fun i => if i = h.next then jsObjOfTls tls else h.mem i
      next := h.next + 1 })

/-- C10: the `tlsConfig` getter returns a reference to a freshly
allocated shallow copy of the internal TLS config: the reference is
distinct from every existing reference, the copy has exactly the
internal config's fields, mutating the returned object leaves every
pre-existing object (hence the supervisor's internal state) unchanged,
and with no internal TLS config the getter returns the empty object
rather than null. -/
theorem C10_tlsConfig_getter (h : JsHeap) (tls : Option TlsConfig)
    (r : Nat) (o : JsTlsObj) (hv : r < h.next) :
    (tlsConfigAlloc h tls).1 ≠ r ∧
    (tlsConfigAlloc h tls).2.mem (tlsConfigAlloc h tls).1 =
      jsObjOfTls tls ∧
    (heapWrite (tlsConfigAlloc h tls).2 (tlsConfigAlloc h tls).1 o).mem r =
      h.mem r ∧
    (∀ i, i < h.next → (tlsConfigAlloc h tls).2.mem i = h.mem i) ∧
    jsObjOfTls none = JsTlsObj.empty := by
  have hne : h.next ≠ r := by omega
  refine ⟨hne, ?_, ?_, ?_, rfl⟩
  · simp [tlsConfigAlloc]
  · simp [tlsConfigAlloc, heapWrite, hne, Ne.symm hne]
  · intro i hi
    have : i ≠ h.next := by omega
    simp [tlsConfigAlloc, this]

/-- A concrete one-object heap for the getter witness. -/
def sampleHeap : JsHeap :=
  { mem := fun i =>
      if i = 0 then jsObjOfTls (some (mkTlsConfig ⟨"ca", "key", "pem"⟩ 8090))
      else JsTlsObj.empty
    next := 1 }

/-- C10 witness: on a heap holding one TLS object, the getter allocates
a distinct fresh copy, and overwriting the copy leaves the original
object intact. -/
theorem C10_witness :
    (tlsConfigAlloc sampleHeap
      (some (mkTlsConfig ⟨"ca", "key", "pem"⟩ 8090))).1 ≠ 0 ∧
    (heapWrite (tlsConfigAlloc sampleHeap
        (some (mkTlsConfig ⟨"ca", "key", "pem"⟩ 8090))).2
      (tlsConfigAlloc sampleHeap
        (some (mkTlsConfig ⟨"ca", "key", "pem"⟩ 8090))).1
      JsTlsObj.empty).mem 0 = sampleHeap.mem 0 := by
  have h := C10_tlsConfig_getter sampleHeap
    (some (mkTlsConfig ⟨"ca", "key", "pem"⟩ 8090)) 0 JsTlsObj.empty
    (by decide)
  exact ⟨h.1, h.2.2.1⟩

end DaedalusNode
